import Mathlib

/-!
Verification of the `prepare-commit-msg` git hook (file
`src/ai-commit-msg/prepare-commit-msg.py`).

The hook reads the commit-message file, collects `git status`/`git diff`
output, builds a prompt, sends one HTTPS POST to the OpenAI completions
endpoint, validates the decoded JSON response, and writes the accepted
suggestion back into the commit-message file.

The shallow embedding below models:
  * decoded JSON values (`Json`);
  * the Python-level dynamic operations the script performs on them
    (`in` membership tests, subscripting, `str()` formatting, `str.strip`,
    `str.startswith`, `json.dumps(..., indent=2)`), including the
    `TypeError` / `KeyError` / `IndexError` / `AttributeError` outcomes
    Python produces on ill-typed values;
  * `OpenAIApiClient._check_response`, `_get_completion` and
    `get_suggested_commit_message` (transport outcome supplied as input);
  * `get_prompt`, the pure truncation tail of `get_diff_text`, and the
    driver `main` with its observable effects (network use, stderr lines,
    file operations, exit status).

JSON numbers are modelled as integers; no claim involves numeric payloads.
-/

/-- A decoded JSON value, as produced by `json.loads`.  Object fields are
kept in order; objects decoded from JSON have pairwise distinct keys. -/
inductive Json where
  | null : Json
  | bool (b : Bool) : Json
  | num (n : Int) : Json
  | str (s : String) : Json
  | arr (xs : List Json) : Json
  | obj (fields : List (String × Json)) : Json

/-- The transport-level failure modes of `_send_request`: name resolution,
TLS handshake, timeout, or a response body that `json.loads` rejects. -/
inductive TransportKind where
  | dnsFailure : TransportKind
  | tlsFailure : TransportKind
  | timeout : TransportKind
  | malformedJson : TransportKind
deriving DecidableEq

/-- The exceptions the script can raise past the client.
`badCompletionException` models `OpenAIBadCompletionException`, a subclass
of `OpenAIApiException` (`apiException`); the remaining constructors model
Python built-in exceptions escaping the dynamic operations, and
`transportError` a transport failure escaping `_send_request`. -/
inductive PyError where
  | apiException (msg : String) : PyError
  | badCompletionException (msg : String) : PyError
  | typeError : PyError
  | keyError (key : String) : PyError
  | indexError : PyError
  | attributeError : PyError
  | transportError (k : TransportKind) : PyError
deriving DecidableEq

/-- The characters stripped by Python `str.strip()` (Unicode whitespace). -/
def pyIsSpace (c : Char) : Bool :=
  let n := c.toNat
  n = 0x20 || n = 0x09 || n = 0x0a || n = 0x0d || n = 0x0b || n = 0x0c ||
  n = 0x1c || n = 0x1d || n = 0x1e || n = 0x1f ||
  n = 0x85 || n = 0xa0 || n = 0x1680 ||
  (0x2000 ≤ n && n ≤ 0x200a) ||
  n = 0x2028 || n = 0x2029 || n = 0x202f || n = 0x205f || n = 0x3000

/-- Python `s.strip()`: remove leading and trailing whitespace. -/
def pyStrip (s : String) : String :=
  String.mk ((((s.data.dropWhile pyIsSpace).reverse).dropWhile pyIsSpace).reverse)

/-- Python `s.startswith(pre)`. -/
def pyStartsWith (s pre : String) : Bool :=
  List.isPrefixOf pre.data s.data

/-- `containsSub sub l` holds when `sub` occurs contiguously inside `l`
(Python substring membership `sub in l` on strings). -/
def containsSub (sub : List Char) : List Char → Bool
  | [] => List.isPrefixOf sub []
  | c :: t => List.isPrefixOf sub (c :: t) || containsSub sub t

/-- Python substring test `needle in hay` on strings. -/
def pyContainsSub (hay needle : String) : Bool :=
  containsSub needle.data hay.data

/-- First binding of `key` in an object's field list (JSON-decoded objects
have distinct keys, so this is the dictionary lookup). -/
def lookupField (fields : List (String × Json)) (key : String) : Option Json :=
  match fields with
  | [] => none
  | (k, v) :: rest => if k = key then some v else lookupField rest key

/-- Python `v == key` for a string `key` and an arbitrary value `v`:
true exactly on equal strings (a `str` compares unequal to every
non-`str` value). -/
def strEqJson (key : String) : Json → Bool
  | Json.str s => s = key
  | _ => false

/-- Python `key in j` for a string `key`: key membership on dicts,
substring test on strings, element membership on lists, and `TypeError`
on non-container values. -/
def pyIn (key : String) : Json → Except PyError Bool
  | Json.obj fields => Except.ok (fields.any (fun kv => kv.1 = key))
  | Json.str s => Except.ok (pyContainsSub s key)
  | Json.arr xs => Except.ok (xs.any (strEqJson key))
  | _ => Except.error PyError.typeError

/-- Python `j[key]` for a string `key`: dict lookup (`KeyError` when the
key is absent), `TypeError` on strings, lists and non-containers. -/
def pyGetItemStr (j : Json) (key : String) : Except PyError Json :=
  match j with
  | Json.obj fields =>
      match lookupField fields key with
      | some v => Except.ok v
      | none => Except.error (PyError.keyError key)
  | _ => Except.error PyError.typeError

/-- Python `j[i]` for a non-negative integer `i`: list indexing
(`IndexError` past the end), one-character strings from string indexing,
`KeyError` on dicts, `TypeError` on non-containers. -/
def pyGetItemIdx (j : Json) (i : Nat) : Except PyError Json :=
  match j with
  | Json.arr xs =>
      match xs.get? i with
      | some v => Except.ok v
      | none => Except.error PyError.indexError
  | Json.str s =>
      match s.data.get? i with
      | some c => Except.ok (Json.str (String.mk [c]))
      | none => Except.error PyError.indexError
  | Json.obj _ => Except.error (PyError.keyError "0")
  | _ => Except.error PyError.typeError

/-- Python `j.strip()`: defined on strings only, `AttributeError`
otherwise. -/
def pyStripJson (j : Json) : Except PyError String :=
  match j with
  | Json.str s => Except.ok (pyStrip s)
  | _ => Except.error PyError.attributeError

/-- Lowercase hexadecimal digit. -/
def hexChar (n : Nat) : Char :=
  if n < 10 then Char.ofNat (48 + n) else Char.ofNat (87 + n % 16)

/-- Two lowercase hexadecimal digits. -/
def hex2 (n : Nat) : String :=
  String.mk [hexChar (n / 16 % 16), hexChar (n % 16)]

/-- Four lowercase hexadecimal digits. -/
def hex4 (n : Nat) : String :=
  String.mk [hexChar (n / 4096 % 16), hexChar (n / 256 % 16), hexChar (n / 16 % 16), hexChar (n % 16)]

/-- One character of a Python string repr, with `q` the enclosing quote:
backslash and the quote are escaped, `\n`/`\r`/`\t` use short escapes, and
other non-printable ASCII uses `\xHH`. -/
def pyReprChar (q : Char) (c : Char) : String :=
  if c = '\\' then "\\\\"
  else if c = q then "\\" ++ String.mk [q]
  else if c = '\n' then "\\n"
  else if c = '\r' then "\\r"
  else if c = '\t' then "\\t"
  else if c.toNat < 0x20 || c.toNat = 0x7f then "\\x" ++ hex2 c.toNat
  else String.mk [c]

/-- Python `repr` of a string: single-quoted, switching to double quotes
when the text contains a single quote but no double quote. -/
def pyReprStr (s : String) : String :=
  let q : Char :=
    if s.data.contains (Char.ofNat 39) && !(s.data.contains (Char.ofNat 34)) then
      Char.ofNat 34
    else Char.ofNat 39
  String.mk [q] ++ String.join (s.data.map (pyReprChar q)) ++ String.mk [q]

mutual

/-- Python `repr` of a decoded JSON value. -/
def pyRepr : Json → String
  | Json.null => "None"
  | Json.bool true => "True"
  | Json.bool false => "False"
  | Json.num n => toString n
  | Json.str s => pyReprStr s
  | Json.arr xs => "[" ++ pyReprList xs ++ "]"
  | Json.obj fields => "\x7b" ++ pyReprFields fields ++ "\x7d"

/-- Comma-separated reprs of list elements. -/
def pyReprList : List Json → String
  | [] => ""
  | [x] => pyRepr x
  | x :: y :: rest => pyRepr x ++ ", " ++ pyReprList (y :: rest)

/-- Comma-separated `key: value` reprs of dict entries. -/
def pyReprFields : List (String × Json) → String
  | [] => ""
  | [(k, v)] => pyReprStr k ++ ": " ++ pyRepr v
  | (k, v) :: f :: rest => pyReprStr k ++ ": " ++ pyRepr v ++ ", " ++ pyReprFields (f :: rest)

end

/-- Python `str()` of a decoded JSON value, as used by f-string
interpolation: a string renders as itself, everything else as its repr. -/
def pyStr : Json → String
  | Json.str s => s
  | j => pyRepr j

/-- One character of a JSON string literal under `ensure_ascii=True`:
quote and backslash escaped, control characters via short escapes or
`\uHHHH`, non-ASCII via `\uHHHH` (surrogate pairs beyond the BMP). -/
def jsonEscapeChar (c : Char) : String :=
  if c = Char.ofNat 34 then "\\\""
  else if c = '\\' then "\\\\"
  else if c = '\n' then "\\n"
  else if c = '\t' then "\\t"
  else if c = '\r' then "\\r"
  else if c.toNat = 8 then "\\b"
  else if c.toNat = 12 then "\\f"
  else if c.toNat < 0x20 || c.toNat > 0x7e then
    if c.toNat < 0x10000 then "\\u" ++ hex4 c.toNat
    else "\\u" ++ hex4 (0xd800 + (c.toNat - 0x10000) / 0x400) ++
         "\\u" ++ hex4 (0xdc00 + (c.toNat - 0x10000) % 0x400)
  else String.mk [c]

/-- A JSON string literal under `ensure_ascii=True`. -/
def jsonQuote (s : String) : String :=
  "\"" ++ String.join (s.data.map jsonEscapeChar) ++ "\""

/-- Indentation produced by `json.dumps(..., indent=2)` at nesting
level `lvl`. -/
def jsonPad (lvl : Nat) : String :=
  String.mk (List.replicate (2 * lvl) ' ')

mutual

/-- `json.dumps(j, indent=2)` rendered at nesting level `lvl`. -/
def jsonDumps (lvl : Nat) : Json → String
  | Json.null => "null"
  | Json.bool true => "true"
  | Json.bool false => "false"
  | Json.num n => toString n
  | Json.str s => jsonQuote s
  | Json.arr [] => "[]"
  | Json.arr (x :: xs) =>
      "[\n" ++ jsonDumpsItems lvl (x :: xs) ++ "\n" ++ jsonPad lvl ++ "]"
  | Json.obj [] => "\x7b\x7d"
  | Json.obj (f :: fs) =>
      "\x7b\n" ++ jsonDumpsFields lvl (f :: fs) ++ "\n" ++ jsonPad lvl ++ "\x7d"

/-- Array items, one per line, indented one level deeper. -/
def jsonDumpsItems (lvl : Nat) : List Json → String
  | [] => ""
  | [x] => jsonPad (lvl + 1) ++ jsonDumps (lvl + 1) x
  | x :: y :: rest =>
      jsonPad (lvl + 1) ++ jsonDumps (lvl + 1) x ++ ",\n" ++ jsonDumpsItems lvl (y :: rest)

/-- Object entries, one per line, indented one level deeper. -/
def jsonDumpsFields (lvl : Nat) : List (String × Json) → String
  | [] => ""
  | [(k, v)] => jsonPad (lvl + 1) ++ jsonQuote k ++ ": " ++ jsonDumps (lvl + 1) v
  | (k, v) :: f :: rest =>
      jsonPad (lvl + 1) ++ jsonQuote k ++ ": " ++ jsonDumps (lvl + 1) v ++ ",\n" ++
      jsonDumpsFields lvl (f :: rest)

end

/-- The attention-drawing style `_check_response` prints with:
`f"\033[01;31m...\033[0;0m"` (bold red followed by a reset). -/
def ansiRed (s : String) : String :=
  "\x1b[01;31m" ++ s ++ "\x1b[0;0m"

/-- `OpenAIApiClient._check_response`: the decoded response must contain a
"choices" key; otherwise an error text is chosen (the nested "message"
field of the "error" value when present, else the whole "error" value,
else `json.dumps(response, indent=2)`) and printed to stderr in bold red,
and the response is reported invalid.  The result pairs the validity flag
with the stderr lines; `TypeError`s raised by `in` or subscripting on
ill-typed values propagate. -/
def check_response (response : Json) : Except PyError (Bool × List String) :=
  match pyIn "choices" response with
  | Except.error e => Except.error e
  | Except.ok hasChoices =>
    if !hasChoices then
      match pyIn "error" response with
      | Except.error e => Except.error e
      | Except.ok hasErr =>
        if hasErr then
          match pyGetItemStr response "error" with
          | Except.error e => Except.error e
          | Except.ok err =>
            match pyIn "message" err with
            | Except.error e => Except.error e
            | Except.ok hasMsg =>
              match (if hasMsg then pyGetItemStr err "message" else Except.ok err) with
              | Except.error e => Except.error e
              | Except.ok errVal => Except.ok (false, [ansiRed (pyStr errVal)])
        else Except.ok (false, [ansiRed (jsonDumps 0 response)])
    else Except.ok (true, [])

/-- `OpenAIApiClient._get_completion`:
`response["choices"][0]["text"].strip()`. -/
def get_completion (response : Json) : Except PyError String :=
  match pyGetItemStr response "choices" with
  | Except.error e => Except.error e
  | Except.ok choices =>
    match pyGetItemIdx choices 0 with
    | Except.error e => Except.error e
    | Except.ok firstChoice =>
      match pyGetItemStr firstChoice "text" with
      | Except.error e => Except.error e
      | Except.ok text => pyStripJson text

deriving instance DecidableEq for Except

/-- The observable outcome of one `get_suggested_commit_message` call:
lines printed to stderr, the text appended to the `.prompt` debug file
(when that append happened), and the returned completion or the raised
exception. -/
structure ClientRun where
  stderr : List String
  promptAppend : Option String
  result : Except PyError String
deriving DecidableEq

/-- `OpenAIApiClient.get_suggested_commit_message`, starting from the
outcome of `_send_request` (a decoded JSON response, or a transport-level
failure, which the code does not catch): validate the response, extract
and strip the completion, append it to `.prompt`, then apply the two
acceptance rules on the "🤖 " marker. -/
def get_suggested_commit_message (transport : Except TransportKind Json) : ClientRun :=
  match transport with
  | Except.error k =>
      { stderr := [], promptAppend := none,
        result := Except.error (PyError.transportError k) }
  | Except.ok response =>
      match check_response response with
      | Except.error e => { stderr := [], promptAppend := none, result := Except.error e }
      | Except.ok (valid, errLines) =>
          if !valid then
            { stderr := errLines, promptAppend := none,
              result := Except.error
                (PyError.apiException "OpenAI API returned an invalid response") }
          else
            match get_completion response with
            | Except.error e =>
                { stderr := errLines, promptAppend := none, result := Except.error e }
            | Except.ok completion =>
                if !(pyStartsWith completion "🤖 ") then
                  { stderr := errLines, promptAppend := some completion,
                    result := Except.error (PyError.badCompletionException
                      ("OpenAI API commit message incorrect header symbol:\n" ++ completion)) }
                else if pyStartsWith completion "🤖 Update" then
                  { stderr := errLines, promptAppend := some completion,
                    result := Except.error (PyError.badCompletionException
                      ("OpenAI API bad commit message:\n\x27" ++ completion ++ "\x27")) }
                else
                  { stderr := errLines, promptAppend := some completion,
                    result := Except.ok completion }

/-- `get_prompt`: the fixed instructional f-string template with `model`
substituted at its four interpolation points and the status and diff
texts embedded verbatim inside fenced blocks.  The template text is
transcribed exactly; the two marker-format instructions are kept as
separate concatenands so theorems can point at them. -/
def get_prompt (model status_text diff_text : String) : String :=
  "\nI want you to act as a technical writer for software engineers, your primary responsibility
is to write clear and concise commit messages for code changes. Your job is to communicate
the purpose and impact of code changes to other members of the development team. It is
important to provide context and details about the changes made, but avoid including
personal opinions or subjective evaluations in your messages.

A good commit message has the following characteristics:
- It is concise and accurately describes the changes made in the commit.
- It is written in the imperative mood and begins with a verb
- It explains why the change was made, rather than how it was made.
- It includes a signature at the end of the message.

Here is an example of a good commit message:
```
🤖 Fix password bug in login form

The login form was submitting even if the password field was empty.
This commit fixes the bug by checking that the password field is not
empty before allowing the form to be submitted.


(commit message written by OpenAI " ++ model ++ ")
```

Here is an example of a good commit message:
```text
🤖 Add prettier and eslint dependencies

This commit updates the package.json file to include the latest
dependencies for prettier and eslint.

prettier is a code formatter that automatically formats code to
conform to a consistent style. It is configured to use the
recommended settings for the JavaScript Standard Style.

eslint is a linter that checks for common errors and code smells.
It is configured to use the recommended settings for the
JavaScript Standard Style.

(commit message written by OpenAI " ++ model ++ ")
```

Some other tips for writing good commit messages:
- Separate subject from body with a blank line
- Keep the subject line (the first line) to 50 characters or less
- Use the body of the message to explain the details of the commit, if necessary
- Wrap the body at 72 characters
- The first two characters should be \"🤖 \" to indicate that the commit message was written by an AI model
- Do not start with the word \"Update\" or anything implied by a commit

At the end of the commit message, add a signature:
```text
(commit message written by OpenAI " ++ model ++ ")
```

Your first task is to review staged changes and suggest a clear and concise commit message for the latest code update to ensure they meet the required standards described above for clarity and conciseness.

Now please, write a commit message for the following patch, " ++ "starting with \"🤖 \"" ++ ".:

Files changed:
```
// git status -s
" ++ status_text ++ "
```

Files diff:
```diff
// git diff --cached --no-color --no-ext-diff --unified=0 --no-prefix
" ++ diff_text ++ "
```
Lastly, " ++ "avoid starting the message with \"🤖 Update\"" ++ ". Instead, choose a unique and stylish first line in the imperative tense that concisely describes the changes made in the commit. This line should be no more than 50 characters.

Now, please write a suggested commit message below that is clear, concise, and colorful, following the rules described above, beginning with \"🤖 \" and ending with the signature \"(commit message written by OpenAI " ++ model ++ ")\":

Respond with the suggested commit message below " ++ "starting with \"🤖 \"" ++ " (unquoted).\n"

/-- The pure tail of `get_diff_text`: git produces `result.stdout`
externally (the two subprocess invocations and the lock-file filter are
collaborator calls); the function returns `result.stdout[:10000]`, the
diff output truncated to its first 10000 characters. -/
def get_diff_text (stdout : String) : String :=
  String.mk (stdout.data.take 10000)

/-- A filesystem operation performed by the hook: `os.remove`, an
`open(path, "w")` write, or an `open(path, "a")` append. -/
inductive FileOp where
  | removeFile (path : String) : FileOp
  | writeFile (path : String) (content : String) : FileOp
  | appendFile (path : String) (content : String) : FileOp
deriving DecidableEq

/-- Replay one file operation over a map from path to content
(`none` = the file does not exist; an append creates the file). -/
def applyFileOp (fs : String → Option String) (op : FileOp) : String → Option String :=
  match op with
  | FileOp.removeFile p => fun q => if q = p then none else fs q
  | FileOp.writeFile p c => fun q => if q = p then some c else fs q
  | FileOp.appendFile p c => fun q => if q = p then some ((fs p).getD "" ++ c) else fs q

/-- The external inputs of one hook invocation: the first line read from
the commit-message file, whether `OPENAI_API_KEY` is set, the stdout of
the two git queries, and the outcome of the HTTPS request. -/
structure HookEnv where
  firstLine : String
  envHasKey : Bool
  statusText : String
  diffStdout : String
  transport : Except TransportKind Json

/-- The observable outcome of one `main` run: whether the API request was
issued, the stderr lines, the file operations in order, and the exit
status (`some n` for an explicit `exit(n)` or a normal return, `none` for
an uncaught exception, which makes the process exit non-zero). -/
structure MainRun where
  networkCalled : Bool
  stderr : List String
  fileOps : List FileOp
  exitCode : Option Nat
deriving DecidableEq

/-- The hook driver `main` (with `check_abort` inlined in source order):
abort successfully when the commit-message file's first line strips to
non-empty; abort with exit 1 when `OPENAI_API_KEY` is missing; otherwise
build the prompt from the status text and the truncated diff, overwrite
`.prompt` with it, call the client, and on success delete the
commit-message file at `msgPath` and recreate it containing exactly the
suggestion.  Client failures propagate uncaught. -/
def mainRun (msgPath : String) (env : HookEnv) : MainRun :=
  if pyStrip env.firstLine ≠ "" then
    { networkCalled := false, stderr := [], fileOps := [], exitCode := some 0 }
  else if !env.envHasKey then
    { networkCalled := false, stderr := [], fileOps := [], exitCode := some 1 }
  else
    let prompt := get_prompt "text-davinci-003" env.statusText (get_diff_text env.diffStdout)
    let run := get_suggested_commit_message env.transport
    let clientOps : List FileOp :=
      match run.promptAppend with
      | some c => [FileOp.appendFile ".prompt" c]
      | none => []
    match run.result with
    | Except.error _ =>
        { networkCalled := true, stderr := run.stderr,
          fileOps := FileOp.writeFile ".prompt" prompt :: clientOps,
          exitCode := none }
    | Except.ok s =>
        { networkCalled := true, stderr := run.stderr,
          fileOps := FileOp.writeFile ".prompt" prompt :: clientOps ++
            [FileOp.removeFile msgPath, FileOp.writeFile msgPath s],
          exitCode := some 0 }

/-! ### Helper lemmas -/

theorem data_append (a b : String) : (a ++ b).data = a.data ++ b.data := rfl

theorem isPrefixOf_append_self (l t : List Char) : List.isPrefixOf l (l ++ t) = true := by
  induction l with
  | nil => simp [List.isPrefixOf]
  | cons c cs ih => simp [List.isPrefixOf, ih]

theorem containsSub_of_isPrefixOf {sub l : List Char}
    (h : List.isPrefixOf sub l = true) : containsSub sub l = true := by
  cases l with
  | nil => simpa [containsSub] using h
  | cons c t => simp [containsSub, h]

theorem containsSub_here (sub post : List Char) : containsSub sub (sub ++ post) = true :=
  containsSub_of_isPrefixOf (isPrefixOf_append_self sub post)

theorem containsSub_skip {sub l : List Char} (x : List Char)
    (h : containsSub sub l = true) : containsSub sub (x ++ l) = true := by
  induction x with
  | nil => simpa using h
  | cons c t ih => simp [containsSub, ih]

theorem any_not_of_dropWhile {p : Char → Bool} {l : List Char}
    (h : l.any (fun c => !p c) = true) :
    (l.dropWhile p).any (fun c => !p c) = true := by
  induction l with
  | nil => simp at h
  | cons c t ih =>
    rw [List.dropWhile_cons]
    by_cases hc : p c
    · simp only [hc, if_true]
      apply ih
      simpa [hc] using h
    · simp [hc, h]

theorem any_reverse_char {p : Char → Bool} {l : List Char}
    (h : l.any p = true) : l.reverse.any p = true := by
  rcases List.any_eq_true.mp h with ⟨x, hx, hp⟩
  exact List.any_eq_true.mpr ⟨x, List.mem_reverse.mpr hx, hp⟩

/-- A first line containing a non-whitespace character does not strip to
the empty string. -/
theorem pyStrip_ne_empty {s : String}
    (h : s.data.any (fun c => !pyIsSpace c) = true) : pyStrip s ≠ "" := by
  intro he
  have hd : (((s.data.dropWhile pyIsSpace).reverse).dropWhile pyIsSpace).reverse = [] :=
    congrArg String.data he
  have h3 := any_not_of_dropWhile (any_reverse_char (any_not_of_dropWhile h))
  rcases List.any_eq_true.mp h3 with ⟨x, hx, _⟩
  rw [List.reverse_eq_nil_iff.mp hd] at hx
  exact absurd hx (List.not_mem_nil x)

theorem lookupField_none_iff (fields : List (String × Json)) (key : String) :
    lookupField fields key = none ↔ fields.any (fun kv => kv.1 = key) = false := by
  induction fields with
  | nil => simp [lookupField]
  | cons kv rest ih =>
    obtain ⟨k, v⟩ := kv
    by_cases hk : k = key
    · simp [lookupField, hk]
    · simp [lookupField, hk, ih]

theorem lookupField_some_any {fields : List (String × Json)} {key : String} {v : Json}
    (h : lookupField fields key = some v) :
    fields.any (fun kv => kv.1 = key) = true := by
  cases hany : fields.any (fun kv => kv.1 = key) with
  | false => rw [(lookupField_none_iff fields key).mpr hany] at h; exact absurd h (by simp)
  | true => rfl

/-- `_check_response` either accepts (flag `true`, nothing printed),
rejects with some printed error text, or raises a `TypeError`. -/
theorem check_response_cases (resp : Json) :
    check_response resp = Except.ok (true, []) ∨
    (∃ lines, check_response resp = Except.ok (false, lines)) ∨
    (∃ e, check_response resp = Except.error e) := by
  unfold check_response
  repeat' split
  all_goals first
    | exact Or.inl rfl
    | exact Or.inr (Or.inl ⟨_, rfl⟩)
    | exact Or.inr (Or.inr ⟨_, rfl⟩)

/-- Elimination principle for a successful client call: a returned
completion passed both acceptance checks, its append to `.prompt`
happened, and validation printed nothing. -/
theorem client_ok_elim (transport : Except TransportKind Json) (s : String)
    (h : (get_suggested_commit_message transport).result = Except.ok s) :
    get_suggested_commit_message transport =
      { stderr := [], promptAppend := some s, result := Except.ok s } ∧
    pyStartsWith s "🤖 " = true ∧ pyStartsWith s "🤖 Update" = false := by
  rcases transport with k | resp
  · exact absurd h (by simp [get_suggested_commit_message])
  · unfold get_suggested_commit_message at h ⊢
    rcases hc : check_response resp with e | ⟨valid, lines⟩ <;> simp only [hc] at h ⊢
    · simp at h
    · cases valid
      · simp at h
      · have hlines : lines = [] := by
          rcases check_response_cases resp with h1 | ⟨l, h1⟩ | ⟨e, h1⟩ <;> rw [h1] at hc
          · exact (Prod.mk.injEq .. ▸ (Except.ok.injEq .. ▸ hc : (true, []) = (true, lines))).2.symm ▸ rfl
          · simp at hc
          · simp at hc
        subst hlines
        rcases hg : get_completion resp with e | c <;> simp only [hg] at h ⊢
        · simp at h
        · by_cases hb1 : pyStartsWith c "🤖 " = true
          · by_cases hb2 : pyStartsWith c "🤖 Update" = true
            · simp [hb1, hb2] at h
            · have hb2f : pyStartsWith c "🤖 Update" = false := by
                cases hb : pyStartsWith c "🤖 Update"
                · rfl
                · exact absurd hb hb2
              simp only [hb1, hb2f, Bool.not_true, Bool.false_eq_true, if_false, if_true] at h ⊢
              simp at h
              subst h
              exact ⟨by simp [hb1, hb2f], hb1, hb2f⟩
          · have hb1f : pyStartsWith c "🤖 " = false := by
              cases hb : pyStartsWith c "🤖 "
              · rfl
              · exact absurd hb hb1
            simp [hb1f] at h

/-! ### Claims -/

/-- C1: every string returned by `get_suggested_commit_message` satisfies
the Completion Result invariant: it is non-empty, begins with the marker
"🤖 " (emoji followed by one space), and does not begin with
"🤖 Update". -/
theorem C1_completion_result_invariant (transport : Except TransportKind Json) (s : String)
    (h : (get_suggested_commit_message transport).result = Except.ok s) :
    s ≠ "" ∧ pyStartsWith s "🤖 " = true ∧ pyStartsWith s "🤖 Update" = false := by
  obtain ⟨-, hb1, hb2⟩ := client_ok_elim transport s h
  refine ⟨?_, hb1, hb2⟩
  intro he
  rw [he] at hb1
  exact absurd hb1 (by decide)

/-- C1 witness: a concrete accepted response returns "🤖 Fix bug", which
satisfies the invariant. -/
theorem C1_completion_result_invariant_witness :
    (get_suggested_commit_message (Except.ok (Json.obj [("choices",
        Json.arr [Json.obj [("text", Json.str "🤖 Fix bug")]])]))).result =
      Except.ok "🤖 Fix bug" ∧
    ("🤖 Fix bug" ≠ "" ∧ pyStartsWith "🤖 Fix bug" "🤖 " = true ∧
      pyStartsWith "🤖 Fix bug" "🤖 Update" = false) :=
  ⟨by decide, C1_completion_result_invariant
    (Except.ok (Json.obj [("choices", Json.arr [Json.obj [("text", Json.str "🤖 Fix bug")]])]))
    "🤖 Fix bug" (by decide)⟩

/-- C4: a commit-message file whose first line contains non-whitespace
content makes the hook exit 0 with no network call and no file
operation, for every environment — in particular independently of
whether the credential environment variable is set (the skip precedes
the credential check). -/
theorem C4_existing_message_skips (msgPath : String) (env : HookEnv)
    (h : env.firstLine.data.any (fun c => !pyIsSpace c) = true) :
    mainRun msgPath env =
      { networkCalled := false, stderr := [], fileOps := [], exitCode := some 0 } := by
  unfold mainRun
  rw [if_pos (pyStrip_ne_empty h)]

/-- C4 witness: a merge message already present, with the credential
variable absent, still exits 0 without a request. -/
theorem C4_existing_message_skips_witness :
    ("Merge branch\n".data.any (fun c => !pyIsSpace c) = true) ∧
    mainRun ".git/COMMIT_EDITMSG"
      { firstLine := "Merge branch\n", envHasKey := false, statusText := "",
        diffStdout := "", transport := Except.error TransportKind.timeout } =
      { networkCalled := false, stderr := [], fileOps := [], exitCode := some 0 } :=
  ⟨by decide, C4_existing_message_skips _ _ (by decide)⟩

/-- C5: `get_diff_text` returns the prefix of the diff output of length
`min (length) 10000`: its characters are `take 10000` of the input's, its
length is the minimum, and it is a prefix of the input. -/
theorem C5_diff_truncated_to_10000 (stdout : String) :
    (get_diff_text stdout).data = stdout.data.take 10000 ∧
    (get_diff_text stdout).length = min stdout.length 10000 ∧
    List.isPrefixOf (get_diff_text stdout).data stdout.data = true := by
  refine ⟨rfl, ?_, ?_⟩
  · show (stdout.data.take 10000).length = min stdout.length 10000
    rw [List.length_take, Nat.min_comm]
    rfl
  · show List.isPrefixOf (stdout.data.take 10000) stdout.data = true
    have h := isPrefixOf_append_self (stdout.data.take 10000) (stdout.data.drop 10000)
    rwa [List.take_append_drop] at h

/-- C9: a transport-level failure of kind `k` (DNS, TLS, timeout,
malformed JSON body) surfaces from `get_suggested_commit_message` as a
typed failure still carrying `k` — distinguishable from a success and
from the API-response and bad-completion errors — with no diagnostic
output and no `.prompt` append having happened. -/
theorem C9_transport_failure_distinguishable (k : TransportKind) :
    get_suggested_commit_message (Except.error k) =
      { stderr := [], promptAppend := none,
        result := Except.error (PyError.transportError k) } := rfl

set_option maxRecDepth 8000 in
set_option maxHeartbeats 2000000 in
/-- C7: the prompt built by `get_prompt` contains the status text and the
diff text verbatim as substrings, and contains the literal marker-format
instructions (start with "🤖 ", avoid starting with "🤖 Update"), for
every model identifier; `get_prompt` is a pure function of its three
arguments, so determinism is immediate. -/
theorem C7_prompt_contains_inputs_and_instructions (model status_text diff_text : String) :
    pyContainsSub (get_prompt model status_text diff_text) status_text = true ∧
    pyContainsSub (get_prompt model status_text diff_text) diff_text = true ∧
    pyContainsSub (get_prompt model status_text diff_text) "starting with \"🤖 \"" = true ∧
    pyContainsSub (get_prompt model status_text diff_text)
      "avoid starting the message with \"🤖 Update\"" = true := by
  refine ⟨?_, ?_, ?_, ?_⟩ <;>
  · unfold pyContainsSub get_prompt
    simp only [data_append, List.append_assoc]
    repeat first
      | exact containsSub_here _ _
      | apply containsSub_skip

/-- After a passed validation and a successful extraction, the client's
outcome is fully determined by the two acceptance checks on the stripped
completion, each with the append to `.prompt` already performed. -/
theorem client_accept_stage (resp : Json) (c : String)
    (hv : check_response resp = Except.ok (true, []))
    (he : get_completion resp = Except.ok c) :
    get_suggested_commit_message (Except.ok resp) =
      (if pyStartsWith c "🤖 " = false then
        { stderr := [], promptAppend := some c,
          result := Except.error (PyError.badCompletionException
            ("OpenAI API commit message incorrect header symbol:\n" ++ c)) }
      else if pyStartsWith c "🤖 Update" = true then
        { stderr := [], promptAppend := some c,
          result := Except.error (PyError.badCompletionException
            ("OpenAI API bad commit message:\n\x27" ++ c ++ "\x27")) }
      else { stderr := [], promptAppend := some c, result := Except.ok c }) := by
  unfold get_suggested_commit_message
  simp only [hv, he]
  cases hb1 : pyStartsWith c "🤖 " <;> cases hb2 : pyStartsWith c "🤖 Update" <;>
    simp [hb1, hb2]

/-- C2: for a decoded response that passes validation and yields an
extracted, whitespace-trimmed completion `c`, the client raises
`OpenAIBadCompletionException` carrying the offending text (in one of
the two source formats embedding `c`) if and only if `c` does not start
with "🤖 " or starts with "🤖 Update". -/
theorem C2_bad_completion_iff (resp : Json) (c : String)
    (hv : check_response resp = Except.ok (true, []))
    (he : get_completion resp = Except.ok c) :
    ((get_suggested_commit_message (Except.ok resp)).result =
        Except.error (PyError.badCompletionException
          ("OpenAI API commit message incorrect header symbol:\n" ++ c)) ∨
     (get_suggested_commit_message (Except.ok resp)).result =
        Except.error (PyError.badCompletionException
          ("OpenAI API bad commit message:\n\x27" ++ c ++ "\x27"))) ↔
    (pyStartsWith c "🤖 " = false ∨ pyStartsWith c "🤖 Update" = true) := by
  rw [client_accept_stage resp c hv he]
  cases hb1 : pyStartsWith c "🤖 " <;> cases hb2 : pyStartsWith c "🤖 Update" <;>
    simp [hb1, hb2]

/-- C2 witness: the spec's example "🤖 Update deps" trips the prefix-ban
rule. -/
theorem C2_bad_completion_iff_witness :
    check_response (Json.obj [("choices",
        Json.arr [Json.obj [("text", Json.str "🤖 Update deps")]])]) =
      Except.ok (true, []) ∧
    get_completion (Json.obj [("choices",
        Json.arr [Json.obj [("text", Json.str "🤖 Update deps")]])]) =
      Except.ok "🤖 Update deps" ∧
    (((get_suggested_commit_message (Except.ok (Json.obj [("choices",
          Json.arr [Json.obj [("text", Json.str "🤖 Update deps")]])]))).result =
        Except.error (PyError.badCompletionException
          ("OpenAI API commit message incorrect header symbol:\n" ++ "🤖 Update deps")) ∨
      (get_suggested_commit_message (Except.ok (Json.obj [("choices",
          Json.arr [Json.obj [("text", Json.str "🤖 Update deps")]])]))).result =
        Except.error (PyError.badCompletionException
          ("OpenAI API bad commit message:\n\x27" ++ "🤖 Update deps" ++ "\x27"))) ↔
     (pyStartsWith "🤖 Update deps" "🤖 " = false ∨
      pyStartsWith "🤖 Update deps" "🤖 Update" = true)) :=
  ⟨by decide, by decide,
    C2_bad_completion_iff
      (Json.obj [("choices", Json.arr [Json.obj [("text", Json.str "🤖 Update deps")]])])
      "🤖 Update deps" (by decide) (by decide)⟩

/-- C8: whenever extraction of the completion succeeds (after a passed
validation), the completion text has been appended to the `.prompt`
debug artifact, with no assumption on the acceptance checks — the append
is observable even on runs that subsequently fail with a bad-completion
error. -/
theorem C8_append_happens_before_checks (resp : Json) (c : String)
    (hv : check_response resp = Except.ok (true, []))
    (he : get_completion resp = Except.ok c) :
    (get_suggested_commit_message (Except.ok resp)).promptAppend = some c := by
  rw [client_accept_stage resp c hv he]
  cases hb1 : pyStartsWith c "🤖 " <;> cases hb2 : pyStartsWith c "🤖 Update" <;>
    simp [hb1, hb2]

/-- C8 witness: a completion without the marker is appended to `.prompt`
even though the run then fails the marker rule. -/
theorem C8_append_happens_before_checks_witness :
    check_response (Json.obj [("choices",
        Json.arr [Json.obj [("text", Json.str "Fix bug")]])]) = Except.ok (true, []) ∧
    get_completion (Json.obj [("choices",
        Json.arr [Json.obj [("text", Json.str "Fix bug")]])]) = Except.ok "Fix bug" ∧
    (get_suggested_commit_message (Except.ok (Json.obj [("choices",
        Json.arr [Json.obj [("text", Json.str "Fix bug")]])]))).promptAppend =
      some "Fix bug" :=
  ⟨by decide, by decide,
    C8_append_happens_before_checks
      (Json.obj [("choices", Json.arr [Json.obj [("text", Json.str "Fix bug")]])])
      "Fix bug" (by decide) (by decide)⟩

/-- C10: a decoded response whose "choices" key maps to an empty list
passes validation, and the extraction then fails with an uncaught
`IndexError` (`response["choices"][0]`) — not an `OpenAIApiException`
and not an `OpenAIBadCompletionException` — so the client returns no
result and never reaches the `.prompt` append. -/
theorem C10_empty_choices_uncaught_index_error (fields : List (String × Json))
    (h : lookupField fields "choices" = some (Json.arr [])) :
    check_response (Json.obj fields) = Except.ok (true, []) ∧
    get_completion (Json.obj fields) = Except.error PyError.indexError ∧
    (get_suggested_commit_message (Except.ok (Json.obj fields))).result =
      Except.error PyError.indexError ∧
    (get_suggested_commit_message (Except.ok (Json.obj fields))).promptAppend = none := by
  have hany := lookupField_some_any h
  have hcheck : check_response (Json.obj fields) = Except.ok (true, []) := by
    unfold check_response
    simp [pyIn, hany]
  have hget : get_completion (Json.obj fields) = Except.error PyError.indexError := by
    unfold get_completion
    simp [pyGetItemStr, pyGetItemIdx, h]
  refine ⟨hcheck, hget, ?_, ?_⟩ <;>
  · unfold get_suggested_commit_message
    simp [hcheck, hget]

/-- C10 witness: the literal response with an empty choices list. -/
theorem C10_empty_choices_uncaught_index_error_witness :
    lookupField [("choices", Json.arr [])] "choices" = some (Json.arr []) ∧
    check_response (Json.obj [("choices", Json.arr [])]) = Except.ok (true, []) ∧
    get_completion (Json.obj [("choices", Json.arr [])]) =
      Except.error PyError.indexError ∧
    (get_suggested_commit_message (Except.ok (Json.obj [("choices", Json.arr [])]))).result =
      Except.error PyError.indexError ∧
    (get_suggested_commit_message
        (Except.ok (Json.obj [("choices", Json.arr [])]))).promptAppend = none :=
  ⟨rfl, (C10_empty_choices_uncaught_index_error [("choices", Json.arr [])] rfl).1,
    (C10_empty_choices_uncaught_index_error [("choices", Json.arr [])] rfl).2.1,
    (C10_empty_choices_uncaught_index_error [("choices", Json.arr [])] rfl).2.2.1,
    (C10_empty_choices_uncaught_index_error [("choices", Json.arr [])] rfl).2.2.2⟩

/-- Whether an object's "error" member, when present, holds an object —
the shapes on which `_check_response`'s error branch is well-typed in
Python (`"message" in response["error"]` needs a container, and
subscripting it by "message" needs a dict). -/
def errorFieldIsObj (fields : List (String × Json)) : Bool :=
  match lookupField fields "error" with
  | some (Json.obj _) => true
  | some _ => false
  | none => true

/-- The error text `_check_response` reports for a response lacking a
"choices" key: the nested "message" field of the "error" value when
present, otherwise the whole "error" value when an "error" key is
present, otherwise the `indent=2` pretty-printed whole body — each
rendered the way the f-string renders it (`str()`). -/
def invalidResponseText (response : Json) : String :=
  match response with
  | Json.obj fields =>
    match lookupField fields "error" with
    | some (Json.obj efs) =>
      match lookupField efs "message" with
      | some msg => pyStr msg
      | none => pyStr (Json.obj efs)
    | some err => pyStr err
    | none => jsonDumps 0 response
  | _ => jsonDumps 0 response

/-- C3 (amended): for a decoded response that is a JSON object lacking a
"choices" key and whose "error" value, when present, is itself an
object, the client fails with `OpenAIApiException` after printing to
stderr, in bold red, the text described by `invalidResponseText`. -/
theorem C3_invalid_object_response_reported (fields : List (String × Json))
    (h1 : lookupField fields "choices" = none)
    (h2 : errorFieldIsObj fields = true) :
    get_suggested_commit_message (Except.ok (Json.obj fields)) =
      { stderr := [ansiRed (invalidResponseText (Json.obj fields))],
        promptAppend := none,
        result := Except.error
          (PyError.apiException "OpenAI API returned an invalid response") } := by
  have hanyc : fields.any (fun kv => kv.1 = "choices") = false :=
    (lookupField_none_iff fields "choices").mp h1
  have hcheck : check_response (Json.obj fields) =
      Except.ok (false, [ansiRed (invalidResponseText (Json.obj fields))]) := by
    unfold check_response invalidResponseText
    cases herr : lookupField fields "error" with
    | none =>
        have hanye : fields.any (fun kv => kv.1 = "error") = false :=
          (lookupField_none_iff fields "error").mp herr
        simp [pyIn, hanyc, hanye, herr]
    | some err =>
        have hanye := lookupField_some_any herr
        unfold errorFieldIsObj at h2
        rw [herr] at h2
        cases err <;> simp at h2
        case obj efs =>
          cases hmsg : lookupField efs "message" with
          | none =>
              have hanym : efs.any (fun kv => kv.1 = "message") = false :=
                (lookupField_none_iff efs "message").mp hmsg
              simp [pyIn, pyGetItemStr, hanyc, hanye, hanym, herr, hmsg]
          | some msg =>
              have hanym := lookupField_some_any hmsg
              simp [pyIn, pyGetItemStr, hanyc, hanye, hanym, herr, hmsg]
  unfold get_suggested_commit_message
  simp [hcheck]

/-- C3 witness: the spec's example `{"error": {"message": "rate limited"}}`
fails with the API exception and "rate limited" reaches stderr. -/
theorem C3_invalid_object_response_reported_witness :
    lookupField [("error", Json.obj [("message", Json.str "rate limited")])] "choices" =
      none ∧
    errorFieldIsObj [("error", Json.obj [("message", Json.str "rate limited")])] = true ∧
    get_suggested_commit_message (Except.ok (Json.obj
        [("error", Json.obj [("message", Json.str "rate limited")])])) =
      { stderr := [ansiRed (invalidResponseText (Json.obj
          [("error", Json.obj [("message", Json.str "rate limited")])]))],
        promptAppend := none,
        result := Except.error
          (PyError.apiException "OpenAI API returned an invalid response") } ∧
    ansiRed (invalidResponseText (Json.obj
        [("error", Json.obj [("message", Json.str "rate limited")])])) =
      "\x1b[01;31mrate limited\x1b[0;0m" :=
  ⟨rfl, rfl,
    C3_invalid_object_response_reported
      [("error", Json.obj [("message", Json.str "rate limited")])] rfl rfl,
    by decide⟩

/-- C3 counterexample: the claim as stated is false for the decoded JSON
object `{"error": 5}`, which lacks a "choices" key: Python evaluates
`"message" in response["error"]` with an `int` on the right, raising an
uncaught `TypeError` before anything is printed, so the call does not
fail with `OpenAIApiException` and nothing reaches stderr. -/
theorem C3_counterexample_scalar_error_value :
    lookupField [("error", Json.num 5)] "choices" = none ∧
    (get_suggested_commit_message (Except.ok (Json.obj [("error", Json.num 5)]))).result =
      Except.error PyError.typeError ∧
    (get_suggested_commit_message (Except.ok (Json.obj [("error", Json.num 5)]))).result ≠
      Except.error (PyError.apiException "OpenAI API returned an invalid response") ∧
    (get_suggested_commit_message (Except.ok (Json.obj [("error", Json.num 5)]))).stderr =
      [] :=
  ⟨rfl, by decide, by decide, by decide⟩

/-- C6: on the success path (no abort, credential present, client
returns a validated suggestion `s`), the driver's file operations are
exactly: overwrite `.prompt` with the prompt, append the completion to
`.prompt`, delete the commit-message file, recreate it containing
exactly `s`; the process exits 0, and replaying the operations over any
starting filesystem leaves the commit-message file holding exactly `s`. -/
theorem C6_success_rewrites_commit_file (msgPath : String) (env : HookEnv) (s : String)
    (fs0 : String → Option String)
    (h1 : pyStrip env.firstLine = "")
    (h2 : env.envHasKey = true)
    (h3 : (get_suggested_commit_message env.transport).result = Except.ok s) :
    mainRun msgPath env =
      { networkCalled := true, stderr := [],
        fileOps := [FileOp.writeFile ".prompt"
            (get_prompt "text-davinci-003" env.statusText (get_diff_text env.diffStdout)),
          FileOp.appendFile ".prompt" s,
          FileOp.removeFile msgPath, FileOp.writeFile msgPath s],
        exitCode := some 0 } ∧
    ((mainRun msgPath env).fileOps.foldl applyFileOp fs0) msgPath = some s := by
  have hcl := (client_ok_elim env.transport s h3).1
  have hmain : mainRun msgPath env =
      { networkCalled := true, stderr := [],
        fileOps := [FileOp.writeFile ".prompt"
            (get_prompt "text-davinci-003" env.statusText (get_diff_text env.diffStdout)),
          FileOp.appendFile ".prompt" s,
          FileOp.removeFile msgPath, FileOp.writeFile msgPath s],
        exitCode := some 0 } := by
    unfold mainRun
    rw [if_neg (by simp [h1]), if_neg (by simp [h2]), hcl]
    rfl
  refine ⟨hmain, ?_⟩
  rw [hmain]
  simp [applyFileOp]

/-- C6 witness: the spec's end-to-end example, replayed from an empty
filesystem. -/
theorem C6_success_rewrites_commit_file_witness :
    pyStrip "" = "" ∧
    (get_suggested_commit_message (Except.ok (Json.obj [("choices", Json.arr [Json.obj
        [("text", Json.str "🤖 Improve file.py handling\n\n(commit message written by OpenAI text-davinci-003)")]])]))).result =
      Except.ok "🤖 Improve file.py handling\n\n(commit message written by OpenAI text-davinci-003)" ∧
    (mainRun ".git/COMMIT_EDITMSG"
        { firstLine := "", envHasKey := true, statusText := "M  file.py",
          diffStdout := "@@ -1 +1 @@\n-old\n+new",
          transport := Except.ok (Json.obj [("choices", Json.arr [Json.obj
            [("text", Json.str "🤖 Improve file.py handling\n\n(commit message written by OpenAI text-davinci-003)")]])]) } =
      { networkCalled := true, stderr := [],
        fileOps := [FileOp.writeFile ".prompt"
            (get_prompt "text-davinci-003" "M  file.py"
              (get_diff_text "@@ -1 +1 @@\n-old\n+new")),
          FileOp.appendFile ".prompt"
            "🤖 Improve file.py handling\n\n(commit message written by OpenAI text-davinci-003)",
          FileOp.removeFile ".git/COMMIT_EDITMSG",
          FileOp.writeFile ".git/COMMIT_EDITMSG"
            "🤖 Improve file.py handling\n\n(commit message written by OpenAI text-davinci-003)"],
        exitCode := some 0 } ∧
    ((mainRun ".git/COMMIT_EDITMSG"
        { firstLine := "", envHasKey := true, statusText := "M  file.py",
          diffStdout := "@@ -1 +1 @@\n-old\n+new",
          transport := Except.ok (Json.obj [("choices", Json.arr [Json.obj
            [("text", Json.str "🤖 Improve file.py handling\n\n(commit message written by OpenAI text-davinci-003)")]])]) }).fileOps.foldl
        applyFileOp (fun _ => none)) ".git/COMMIT_EDITMSG" =
      some "🤖 Improve file.py handling\n\n(commit message written by OpenAI text-davinci-003)") :=
  ⟨rfl, by decide,
    C6_success_rewrites_commit_file ".git/COMMIT_EDITMSG"
      { firstLine := "", envHasKey := true, statusText := "M  file.py",
        diffStdout := "@@ -1 +1 @@\n-old\n+new",
        transport := Except.ok (Json.obj [("choices", Json.arr [Json.obj
          [("text", Json.str "🤖 Improve file.py handling\n\n(commit message written by OpenAI text-davinci-003)")]])]) }
      "🤖 Improve file.py handling\n\n(commit message written by OpenAI text-davinci-003)"
      (fun _ => none) rfl rfl (by decide)⟩
